import Mathlib

/-!
Verification development for the statement-reconciliation and time-series
pipeline of the financial-dashboard repository.

The JavaScript processing script (multi-account Schwab data preprocessing)
is shallowly embedded here.  Conventions of the embedding:

* JS floating-point numbers are modelled as exact rationals (`ℚ`).
* JS calendar dates are modelled as `CalDate`: a linear month index
  (`year * 12 + monthOfYear`, zero-based) together with a day of month.
  The process is assumed to run with a UTC-or-western local timezone, so
  `toISOString` of a local month-end stays inside the month.
* `Math.pow` on arbitrary rational arguments is not exactly computable,
  so functions using it are parameterised by an abstract power function
  `pw : ℚ → ℚ → ℚ`; likewise `Date.getTime` is parameterised as
  `msOf : CalDate → ℚ`, and the wall clock `new Date()` is an explicit
  `today` / `now` argument.
* JS objects keyed by date strings are modelled as association lists of
  statements; lexicographic comparison of `YYYY-MM-DD` keys coincides with
  chronological comparison of `CalDate`s.
-/

/-- Calendar date: linear month index (year * 12 + monthOfYear - 1) plus day. -/
structure CalDate where
  month : ℕ
  day : ℕ
deriving DecidableEq, Repr

/-- Chronological order on dates (string order of the ISO keys). -/
def dateLe (a b : CalDate) : Prop :=
  a.month < b.month ∨ (a.month = b.month ∧ a.day ≤ b.day)

instance dateLe.instDec (a b : CalDate) : Decidable (dateLe a b) := by
  unfold dateLe; infer_instance

/-- Gregorian leap-year test, as `new Date(y, m + 1, 0)` computes it. -/
def isLeapYear (y : ℕ) : Bool :=
  (y % 4 == 0 && y % 100 != 0) || y % 400 == 0

/-- Day of month of the month-end date `new Date(year, month + 1, 0)`. -/
def monthEndDay (m : ℕ) : ℕ :=
  let mo := m % 12
  if mo == 1 then (if isLeapYear (m / 12) then 29 else 28)
  else if mo == 3 || mo == 5 || mo == 8 || mo == 10 then 30
  else 31

/-- The six transaction types produced by the classifier in
`processTransactions`; unmatched rows are dropped, so no seventh
constructor exists. -/
inductive TxType where
  | BUY
  | SELL
  | DIVIDEND
  | DEPOSIT
  | WITHDRAWAL
  | FEE
deriving DecidableEq, Repr

/-- A classified transaction as built by `processTransactions`
(`id`, `description`, `symbol`, `quantity`, `price` carry no logic and are
omitted). -/
structure SchwabTx where
  date : CalDate
  type : TxType
  amount : ℚ
  fees : ℚ
  netAmount : ℚ
deriving DecidableEq, Repr

/-- A raw CSV ledger row as read by `processTransactions` (only the fields
the classifier consumes). -/
structure RawRow where
  date : CalDate
  action : String
  fees : ℚ
  amount : ℚ

/-- Substring search helper: does `s` start with `pat`? -/
def startsWithL : List Char → List Char → Bool
  | _, [] => true
  | [], _ :: _ => false
  | a :: as, b :: bs => a == b && startsWithL as bs

/-- Substring search: does `pat` occur anywhere in `s`?  Models JS
`String.prototype.includes`. -/
def containsL : List Char → List Char → Bool
  | [], sub => sub.isEmpty
  | a :: as, sub => startsWithL (a :: as) sub || containsL as sub

/-- `action.toLowerCase().includes(pat)` for an already-lowercase `pat`. -/
def lowerHas (action pat : String) : Bool :=
  containsL (action.data.map Char.toLower) pat.data

/-- The transaction classifier of `processTransactions`: ordered rules,
first match wins, unmatched rows yield `none` (the row is skipped). -/
def classifyAction (action : String) (amount : ℚ) : Option TxType :=
  if lowerHas action ("dividend") || lowerHas action ("interest") then
    some TxType.DIVIDEND
  else if lowerHas action ("moneylink") || lowerHas action ("transfer") then
    some (if 0 < amount then TxType.DEPOSIT else TxType.WITHDRAWAL)
  else if lowerHas action ("buy") then some TxType.BUY
  else if lowerHas action ("sell") then some TxType.SELL
  else if lowerHas action ("advisor fee") || lowerHas action ("mgmtfee") then
    some TxType.FEE
  else none

/-- Insert a transaction into a list sorted by date descending (helper for
the final `transactions.sort((a, b) => dateB - dateA)`). -/
def insertDesc (t : SchwabTx) : List SchwabTx → List SchwabTx
  | [] => [t]
  | u :: us => if dateLe u.date t.date then t :: u :: us else u :: insertDesc t us

/-- Sort transactions by date, newest first. -/
def sortDesc (l : List SchwabTx) : List SchwabTx :=
  l.foldr insertDesc []

/-- `processTransactions` over already-split CSV rows: classify each row,
drop unmatched rows, set `netAmount = amount - fees`, sort newest first. -/
def processTransactions (rows : List RawRow) : List SchwabTx :=
  sortDesc (rows.filterMap fun r =>
    (classifyAction r.action r.amount).map fun ty =>
      { date := r.date, type := ty, amount := r.amount, fees := r.fees,
        netAmount := r.amount - r.fees })

/-- Does this character position start a `MM/DD/YYYY` token?  If so, return
the month, day and year digit groups. -/
def matchMMDDYYYY : List Char → Option (List Char × List Char × List Char)
  | m1 :: m2 :: s1 :: d1 :: d2 :: s2 :: y1 :: y2 :: y3 :: y4 :: _ =>
    if m1.isDigit && m2.isDigit && s1 == '/' && d1.isDigit && d2.isDigit &&
       s2 == '/' && y1.isDigit && y2.isDigit && y3.isDigit && y4.isDigit then
      some ([m1, m2], [d1, d2], [y1, y2, y3, y4])
    else none
  | _ => none

/-- First occurrence of the `MM/DD/YYYY` regex in the character list. -/
def findDateToken : List Char → Option (List Char × List Char × List Char)
  | [] => none
  | c :: cs =>
    match matchMMDDYYYY (c :: cs) with
    | some r => some r
    | none => findDateToken cs

/-- `parseDate` of the processing script.  `now` is the ISO date of the wall
clock (`new Date().toISOString().split('T')[0]`): when no `MM/DD/YYYY`
token occurs in the input the source returns `now` instead of failing. -/
def parseDate (now : String) (value : String) : String :=
  match findDateToken value.data with
  | some (mm, dd, yyyy) =>
    String.mk (yyyy ++ ['-'] ++ mm ++ ['-'] ++ dd)
  | none => now

/-- An accepted statement balance: date plus extracted ending account value
(one entry of the `statementBalances` object, keyed by date). -/
structure Stmt where
  date : CalDate
  value : ℚ
deriving DecidableEq, Repr

/-- One PDF document after the regex cascade: its filename date and the
extracted candidate balance (`0` when no pattern matched, mirroring the
`accountValue = 0` initial value of `extractStatementBalances`). -/
structure ExtractedDoc where
  date : CalDate
  value : ℚ
deriving DecidableEq, Repr

/-- The chronologically latest accepted statement
(`Object.keys(statementBalances).sort()` and take the last key). -/
def latestAccepted : List Stmt → Option Stmt
  | [] => none
  | s :: ss =>
    match latestAccepted ss with
    | none => some s
    | some t => some (if dateLe t.date s.date then s else t)

/-- Store a balance under its date key: JS object assignment overwrites an
existing same-date entry, otherwise adds a new one. -/
def insertBalance (acc : List Stmt) (d : ExtractedDoc) : List Stmt :=
  if acc.any fun s => s.date == d.date then
    acc.map fun s => if s.date == d.date then { date := s.date, value := d.value } else s
  else acc ++ [{ date := d.date, value := d.value }]

/-- The balance-acceptance loop of `extractStatementBalances`: for each
document with a positive extracted value, reject it when it is a more than
90% drop from the most recently accepted balance AND is below the $10,000
floor; otherwise store it.  Processing always continues with the rest. -/
def acceptBalances : List ExtractedDoc → List Stmt → List Stmt
  | [], acc => acc
  | d :: ds, acc =>
    if 0 < d.value then
      match latestAccepted acc with
      | some t =>
        if 9 / 10 < (t.value - d.value) / t.value ∧ d.value < 10000 then
          acceptBalances ds acc
        else acceptBalances ds (insertBalance acc d)
      | none => acceptBalances ds (insertBalance acc d)
    else acceptBalances ds acc

/-- One point of the generated monthly time series, exactly the fields the
source pushes (`date` is the month-end of `month`; there is no field
marking a point as estimated). -/
structure TSPoint where
  month : ℕ
  portfolioValue : ℚ
  accountValue : ℚ
  deposits : ℚ
  withdrawals : ℚ
  spyValue : ℚ
  vfifxValue : ℚ
  pelosiValue : ℚ
deriving DecidableEq, Repr

/-- Default point used with `List.getD` when indexing time series. -/
def dummyPoint : TSPoint :=
  { month := 0, portfolioValue := 0, accountValue := 0, deposits := 0,
    withdrawals := 0, spyValue := 0, vfifxValue := 0, pelosiValue := 0 }

/-- Inputs of `generateTimeSeriesData`.  The benchmark monthly-return tables
(`SP500_MONTHLY_RETURNS` etc., with `|| 0` defaulting) are total functions
from month index to return fraction; `today` is the wall-clock month used
only when transactions or balances are empty. -/
structure TSConfig where
  transactions : List SchwabTx
  currentValue : ℚ
  netDeposits : ℚ
  balances : List Stmt
  isGeneralInvestment : Bool
  rSpy : ℕ → ℚ
  rVfifx : ℕ → ℚ
  rPelosi : ℕ → ℚ
  today : ℕ

/-- The hardcoded starting principal for the General Investment Account. -/
def HARDCODED_STARTING_VALUE : ℚ := 413279

/-- Earliest transaction date (`Math.min` over `new Date(t.date)`). -/
def minTxDate? : List SchwabTx → Option CalDate
  | [] => none
  | t :: ts => some (ts.foldl (fun d u => if dateLe d u.date then d else u.date) t.date)

/-- Chronologically first statement (`Object.keys(balances).sort()[0]`). -/
def minStmt? : List Stmt → Option Stmt
  | [] => none
  | s :: ss => some (ss.foldl (fun a b => if dateLe b.date a.date then b else a) s)

/-- Chronologically last statement (last sorted key). -/
def maxStmt? : List Stmt → Option Stmt
  | [] => none
  | s :: ss => some (ss.foldl (fun a b => if dateLe a.date b.date then b else a) s)

/-- Month of the first generated point: month of the earliest transaction,
or the current month when there are no transactions. -/
def startMonth (C : TSConfig) : ℕ :=
  match minTxDate? C.transactions with
  | some d => d.month
  | none => C.today

/-- Month of the last generated point: month of the last statement, or the
current month when there are no statements. -/
def endMonth (C : TSConfig) : ℕ :=
  match maxStmt? C.balances with
  | some s => s.date.month
  | none => C.today

/-- Value of the chronologically first accepted statement, `0` if none. -/
def firstStatementBalance (C : TSConfig) : ℚ :=
  match minStmt? C.balances with
  | some s => s.value
  | none => 0

/-- Starting principal of the series: the hardcoded override for the
General Investment Account, else the first statement balance. -/
def startingPrincipal (C : TSConfig) : ℚ :=
  if C.isGeneralInvestment = true then HARDCODED_STARTING_VALUE
  else firstStatementBalance C

/-- Cumulative deposits over all transactions dated up to the end of month
`m` (`Math.abs` of the amounts of DEPOSIT rows with date ≤ monthEnd). -/
def cumDeposits (txs : List SchwabTx) (m : ℕ) : ℚ :=
  ((txs.filter fun t => decide (t.date.month ≤ m ∧ t.type = TxType.DEPOSIT)).map
    fun t => abs t.amount).sum

/-- Cumulative withdrawals up to the end of month `m`. -/
def cumWithdrawals (txs : List SchwabTx) (m : ℕ) : ℚ :=
  ((txs.filter fun t => decide (t.date.month ≤ m ∧ t.type = TxType.WITHDRAWAL)).map
    fun t => abs t.amount).sum

/-- Exact-date lookup `balances[monthEndStr]`, `0` when the key is absent
(so the JS truthiness test reads as `≠ 0`). -/
def exactStatementValue (bals : List Stmt) (m : ℕ) : ℚ :=
  match bals.find? fun s => decide (s.date.month = m ∧ s.date.day = monthEndDay m) with
  | some s => s.value
  | none => 0

/-- Latest statement dated within calendar month `m`
(filter keys by the `YYYY-MM` prefix, sort, take the last). -/
def latestInMonth (bals : List Stmt) (m : ℕ) : Option ℚ :=
  (latestAccepted (bals.filter fun s => decide (s.date.month = m))).map fun s => s.value

/-- Month-`m` account value resolution of `generateTimeSeriesData` for a
non-first point: exact-date statement, else latest statement in the month,
else the estimate `principal * (1 + overall return rate)` (or the bare
principal when `netDeposits ≤ 0`, or `0`). -/
def resolveAccountValue (C : TSConfig) (m : ℕ) (net : ℚ) : ℚ :=
  let ev := exactStatementValue C.balances m
  if ev ≠ 0 then ev
  else
    match latestInMonth C.balances m with
    | some v => v
    | none =>
      if 0 < C.netDeposits ∧ 0 < net then
        net * (1 + (C.currentValue - C.netDeposits) / C.netDeposits)
      else if 0 < net then net else 0

/-- Sequential benchmark compounding: multiply `v` by `(1 + r k)` for the
`n` months `k = a, a+1, …, a+n-1` (the source loops from the series start
month through the current month inclusive). -/
def compFold (r : ℕ → ℚ) : ℕ → ℕ → ℚ → ℚ
  | _, 0, v => v
  | a, n + 1, v => compFold r (a + 1) n (v * (1 + r a))

/-- Mutable state of the monthly generation loop. -/
structure GenSt where
  first : Bool
  runningPrincipal : ℚ
  lastD : ℚ
  lastW : ℚ

/-- One iteration of the monthly loop of `generateTimeSeriesData`:
computes this month's cumulative cash flows, updates the running principal
by the deltas (first month: initialize to the starting principal), resolves
the account value, recomputes each benchmark value by compounding the
current principal from the series start, and pushes the point with every
value clamped by `Math.max(0, ·)`. -/
def monthStep (C : TSConfig) (m : ℕ) (s : GenSt) : TSPoint × GenSt :=
  let mD := cumDeposits C.transactions m
  let mW := cumWithdrawals C.transactions m
  let net := if s.first = true then startingPrincipal C
             else s.runningPrincipal + (mD - s.lastD) - (mW - s.lastW)
  let av := if s.first = true ∧ 0 < firstStatementBalance C then startingPrincipal C
            else resolveAccountValue C m net
  let spy := if s.first = true then net
             else compFold C.rSpy (startMonth C) (m + 1 - startMonth C) net
  let vfifx := if s.first = true then net
               else compFold C.rVfifx (startMonth C) (m + 1 - startMonth C) net
  let pelosi := if s.first = true then net
                else compFold C.rPelosi (startMonth C) (m + 1 - startMonth C) net
  ({ month := m, portfolioValue := max 0 av, accountValue := max 0 av,
     deposits := net, withdrawals := mW, spyValue := max 0 spy,
     vfifxValue := max 0 vfifx, pelosiValue := max 0 pelosi },
   { first := false, runningPrincipal := net, lastD := mD, lastW := mW })

/-- The monthly loop: emit one point per month starting at `m`, `n` months
in total. -/
def genFrom (C : TSConfig) : GenSt → ℕ → ℕ → List TSPoint
  | _, _, 0 => []
  | s, m, n + 1 =>
    (monthStep C m s).1 :: genFrom C (monthStep C m s).2 (m + 1) n

/-- Initial loop state (`runningPrincipal` starts at the hardcoded value
for the General Investment Account, else 0; overwritten at the first
iteration). -/
def initSt (C : TSConfig) : GenSt :=
  { first := true,
    runningPrincipal := if C.isGeneralInvestment = true then HARDCODED_STARTING_VALUE else 0,
    lastD := 0, lastW := 0 }

/-- `generateTimeSeriesData`: one point per calendar month from the month
of the earliest transaction through the month of the last statement. -/
def generateTimeSeriesData (C : TSConfig) : List TSPoint :=
  genFrom C (initSt C) (startMonth C) (endMonth C + 1 - startMonth C)

/-- `FinancialCalculator.safeDivide`: the `isFinite` guards of the source
are vacuous over exact rationals, leaving the zero-denominator guard. -/
def safeDivide (numerator denominator defaultValue : ℚ) : ℚ :=
  if denominator = 0 then defaultValue else numerator / denominator

/-- `FinancialCalculator.safePower`, parameterised by the abstract
`Math.pow` function `pw`: non-positive bases yield the default. -/
def safePower (pw : ℚ → ℚ → ℚ) (base exponent defaultValue : ℚ) : ℚ :=
  if base ≤ 0 then defaultValue else pw base exponent

/-- `FINANCIAL_CONSTANTS.MIN_PRINCIPAL_FOR_CALCULATION` (one dollar). -/
def MIN_PRINCIPAL_FOR_CALCULATION : ℚ := 1

/-- `FINANCIAL_CONSTANTS.MIN_YEARS_FOR_ANNUALIZED`. -/
def MIN_YEARS_FOR_ANNUALIZED : ℚ := 1 / 10

/-- `FinancialCalculator.calculateAnnualizedReturn`:
`(finalValue / initialValue)^(1 / years) - 1` as a percentage, with the
source's input guards transcribed in order. -/
def calculateAnnualizedReturn (pw : ℚ → ℚ → ℚ) (finalValue initialValue years : ℚ) : ℚ :=
  if initialValue ≤ MIN_PRINCIPAL_FOR_CALCULATION then 0
  else if years < MIN_YEARS_FOR_ANNUALIZED then 0
  else if finalValue < 0 ∨ initialValue < 0 ∨ years ≤ 0 then 0
  else
    (safePower pw (safeDivide finalValue initialValue 1) (safeDivide 1 years 0) 1 - 1) * 100

/-- A power function that agrees with `Math.pow` at exponent 1
(`Math.pow(x, 1) = x`); used to instantiate the abstract `pw`. -/
def powAtOne : ℚ → ℚ → ℚ := fun a e => if e = 1 then a else 0

/-- Milliseconds per year, `365.25 * 24 * 60 * 60 * 1000`. -/
def msPerYear : ℚ := 31557600000

/-- Minimum of a list of rationals with a default for the empty list
(`Math.min(...)` over transaction timestamps, else `new Date()`). -/
def minQList (l : List ℚ) (dflt : ℚ) : ℚ :=
  match l with
  | [] => dflt
  | x :: xs => xs.foldl min x

/-- Sum of `Math.abs(tx.amount)` over the transactions of one type. -/
def sumAbsByType (txs : List SchwabTx) (ty : TxType) : ℚ :=
  ((txs.filter fun t => decide (t.type = ty)).map fun t => abs t.amount).sum

/-- `calculateSP500Performance`: compound the principal through the months
spanned by the time series and report the total return percentage. -/
def calculateSP500Performance (r : ℕ → ℚ) (ts : List TSPoint) (principal : ℚ) : ℚ × ℚ :=
  match ts with
  | [] => (principal, 0)
  | h :: t =>
    let sM := h.month
    let eM := match (h :: t).getLast? with
              | some p => p.month
              | none => h.month
    let v := compFold r sM (eM + 1 - sM) principal
    (v, (v / principal - 1) * 100)

/-- Output record of `calculateMetrics` (all calculation fields of the
returned object, flattened). -/
structure Metrics where
  currentValue : ℚ
  totalDeposits : ℚ
  totalWithdrawals : ℚ
  totalFees : ℚ
  netDeposits : ℚ
  realReturn : ℚ
  realReturnPercent : ℚ
  netReturnAfterFees : ℚ
  netReturnAfterFeesPercent : ℚ
  yearsInvested : ℚ
  annualizedReturn : ℚ
  sp500Value : ℚ
  sp500Return : ℚ
  sp500Gains : ℚ
  outperformance : ℚ
  outperformancePercent : ℚ
deriving DecidableEq, Repr

/-- `calculateMetrics` of the processing script.  `pw` abstracts
`Math.pow`, `msOf` abstracts `new Date(d).getTime()`, `r` is the S&P 500
monthly-return table, `now` is the wall-clock timestamp in ms. -/
def calculateMetrics (pw : ℚ → ℚ → ℚ) (msOf : CalDate → ℚ) (r : ℕ → ℚ)
    (positions : List ℚ) (txs : List SchwabTx) (isGI : Bool)
    (bals : List Stmt) (ts : Option (List TSPoint)) (now : ℚ) : Metrics :=
  let posValue : ℚ := positions.sum
  let currentValue : ℚ :=
    if isGI = true ∧ bals ≠ [] then
      match maxStmt? bals with
      | some s => s.value
      | none => posValue
    else posValue
  let totalDeposits := sumAbsByType txs TxType.DEPOSIT
  let totalWithdrawals := sumAbsByType txs TxType.WITHDRAWAL
  let totalFees := sumAbsByType txs TxType.FEE
  let netDeposits : ℚ :=
    if bals ≠ [] then
      (match minStmt? bals with
       | some s => s.value
       | none => 0) + (totalDeposits - totalWithdrawals)
    else totalDeposits - totalWithdrawals
  let realReturn := currentValue - netDeposits
  let realReturnPercent := if 0 < netDeposits then realReturn / netDeposits * 100 else 0
  let netReturnAfterFees := realReturn - totalFees
  let netReturnAfterFeesPercent :=
    if 0 < netDeposits then netReturnAfterFees / netDeposits * 100 else 0
  let earliest := minQList (txs.map fun t => msOf t.date) now
  let yearsInvested := (now - earliest) / msPerYear
  let annualizedReturn :=
    if 0 < yearsInvested ∧ 0 < netDeposits then
      (pw (currentValue / netDeposits) (1 / yearsInvested) - 1) * 100
    else 0
  let sp : ℚ × ℚ :=
    match ts with
    | some l => if l ≠ [] then calculateSP500Performance r l netDeposits else (netDeposits, 0)
    | none => (netDeposits, 0)
  let sp500Gains := sp.1 - netDeposits
  { currentValue := currentValue, totalDeposits := totalDeposits,
    totalWithdrawals := totalWithdrawals, totalFees := totalFees,
    netDeposits := netDeposits, realReturn := realReturn,
    realReturnPercent := realReturnPercent, netReturnAfterFees := netReturnAfterFees,
    netReturnAfterFeesPercent := netReturnAfterFeesPercent,
    yearsInvested := yearsInvested, annualizedReturn := annualizedReturn,
    sp500Value := sp.1, sp500Return := sp.2, sp500Gains := sp500Gains,
    outperformance := realReturn - sp500Gains,
    outperformancePercent := realReturnPercent - sp.2 }

/-! ### Concrete instances used to evaluate the pipeline -/

/-- Default transaction for `List.getD` indexing. -/
def dummyTx : SchwabTx :=
  { date := { month := 0, day := 0 }, type := TxType.BUY, amount := 0, fees := 0, netAmount := 0 }

/-- A benchmark-return table that is zero everywhere. -/
def zeroReturns : ℕ → ℚ := fun _ => 0

/-- A one-transaction ledger: a BUY dated the 5th day of month 0 (it
contributes nothing to deposits or withdrawals). -/
def oneBuyTx : SchwabTx :=
  { date := { month := 0, day := 5 }, type := TxType.BUY, amount := 0, fees := 0, netAmount := 0 }

/-- Configuration exercising benchmark compounding: statements of $1,000
(month 0) and $1,100 (month 1), and an S&P table returning +100% in
month 0 and 0% afterwards. -/
def c1cfg : TSConfig :=
  { transactions := [oneBuyTx],
    currentValue := 0, netDeposits := 0,
    balances := [{ date := { month := 0, day := 31 }, value := 1000 },
                 { date := { month := 1, day := 29 }, value := 1100 }],
    isGeneralInvestment := false,
    rSpy := fun m => if m == 0 then 1 else 0,
    rVfifx := zeroReturns, rPelosi := zeroReturns, today := 0 }

/-- Configuration with two deposits ($100 in month 0, $50 in month 1) and
two statements ($1,000 at the end of month 0, $1,100 at the end of
month 1). -/
def c2cfg : TSConfig :=
  { transactions :=
      [{ date := { month := 0, day := 5 }, type := TxType.DEPOSIT, amount := 100, fees := 0,
         netAmount := 100 },
       { date := { month := 1, day := 10 }, type := TxType.DEPOSIT, amount := 50, fees := 0,
         netAmount := 50 }],
    currentValue := 0, netDeposits := 0,
    balances := [{ date := { month := 0, day := 31 }, value := 1000 },
                 { date := { month := 1, day := 29 }, value := 1100 }],
    isGeneralInvestment := false,
    rSpy := zeroReturns, rVfifx := zeroReturns, rPelosi := zeroReturns, today := 0 }

/-- Configuration whose earliest transaction (month 0) predates its only
statement (month 1). -/
def c3cfg : TSConfig :=
  { transactions := [oneBuyTx],
    currentValue := 0, netDeposits := 0,
    balances := [{ date := { month := 1, day := 29 }, value := 1100 }],
    isGeneralInvestment := false,
    rSpy := zeroReturns, rVfifx := zeroReturns, rPelosi := zeroReturns, today := 0 }

/-- Configuration with statements in months 0, 1 and 2; the month-1 value
equals the running principal. -/
def c4cfgA : TSConfig :=
  { transactions := [oneBuyTx],
    currentValue := 0, netDeposits := 0,
    balances := [{ date := { month := 0, day := 31 }, value := 1000 },
                 { date := { month := 1, day := 29 }, value := 1000 },
                 { date := { month := 2, day := 31 }, value := 1200 }],
    isGeneralInvestment := false,
    rSpy := zeroReturns, rVfifx := zeroReturns, rPelosi := zeroReturns, today := 0 }

/-- Like `c4cfgA` but with no statement in month 1, so that month's point
is estimation-backed. -/
def c4cfgB : TSConfig :=
  { transactions := [oneBuyTx],
    currentValue := 0, netDeposits := 0,
    balances := [{ date := { month := 0, day := 31 }, value := 1000 },
                 { date := { month := 2, day := 31 }, value := 1200 }],
    isGeneralInvestment := false,
    rSpy := zeroReturns, rVfifx := zeroReturns, rPelosi := zeroReturns, today := 0 }

/-- Configuration used to exhibit a concrete generated point. -/
def c10cfg : TSConfig :=
  { transactions := [oneBuyTx],
    currentValue := 0, netDeposits := 0,
    balances := [{ date := { month := 0, day := 31 }, value := 1000 }],
    isGeneralInvestment := false,
    rSpy := zeroReturns, rVfifx := zeroReturns, rPelosi := zeroReturns, today := 0 }

/-- The first point generated from `c10cfg`. -/
def c10pt : TSPoint := (generateTimeSeriesData c10cfg).getD 0 dummyPoint

/-- A transaction list for exercising `calculateMetrics`. -/
def c9txs : List SchwabTx :=
  [{ date := { month := 0, day := 5 }, type := TxType.DEPOSIT, amount := 100, fees := 0,
     netAmount := 100 }]

/-- A raw MoneyLink-transfer ledger row. -/
def c5row : RawRow :=
  { date := { month := 0, day := 1 }, action := ("MoneyLink Transfer"), fees := 0, amount := 500 }

/-- The transaction `processTransactions` builds from `c5row`. -/
def c5tx : SchwabTx :=
  { date := { month := 0, day := 1 }, type := TxType.DEPOSIT, amount := 500, fees := 0,
    netAmount := 500 - 0 }

/-- An arbitrary concrete power function (the fields compared never use it). -/
def zeroPow : ℚ → ℚ → ℚ := fun _ _ => 0

/-- A concrete timestamp function mapping every date to epoch 0. -/
def zeroMs : CalDate → ℚ := fun _ => 0

/-! ### Infrastructure lemmas about the generation loop -/

theorem dateLe_month {a b : CalDate} (h : dateLe a b) : a.month ≤ b.month := by
  unfold dateLe at h; omega

theorem dateLe_of_not_dateLe {a b : CalDate} (h : ¬ dateLe a b) : dateLe b a := by
  unfold dateLe at *; omega

theorem genFrom_zero (C : TSConfig) (s : GenSt) (m : ℕ) : genFrom C s m 0 = [] := rfl

theorem genFrom_succ (C : TSConfig) (s : GenSt) (m n : ℕ) :
    genFrom C s m (n + 1) = (monthStep C m s).1 :: genFrom C (monthStep C m s).2 (m + 1) n := rfl

theorem genFrom_length (C : TSConfig) :
    ∀ (n : ℕ) (s : GenSt) (m : ℕ), (genFrom C s m n).length = n := by
  intro n
  induction n with
  | zero => intro s m; rfl
  | succ k ih => intro s m; simp [genFrom_succ, ih]

theorem monthStep_month (C : TSConfig) (m : ℕ) (s : GenSt) :
    (monthStep C m s).1.month = m := rfl

theorem monthStep_snd_first (C : TSConfig) (m : ℕ) (s : GenSt) :
    (monthStep C m s).2.first = false := rfl

theorem monthStep_snd (C : TSConfig) (m : ℕ) (s : GenSt) :
    (monthStep C m s).2 =
      { first := false, runningPrincipal := (monthStep C m s).1.deposits,
        lastD := cumDeposits C.transactions m, lastW := cumWithdrawals C.transactions m } := rfl

theorem monthStep_deposits_not_first (C : TSConfig) (m : ℕ) (s : GenSt) (hs : s.first = false) :
    (monthStep C m s).1.deposits
      = s.runningPrincipal + (cumDeposits C.transactions m - s.lastD)
        - (cumWithdrawals C.transactions m - s.lastW) := by
  simp [monthStep, hs]

theorem monthStep_deposits_first (C : TSConfig) (m : ℕ) (s : GenSt) (hs : s.first = true) :
    (monthStep C m s).1.deposits = startingPrincipal C := by
  simp [monthStep, hs]

theorem genFrom_month (C : TSConfig) :
    ∀ (n : ℕ) (s : GenSt) (m i : ℕ), i < n →
      ((genFrom C s m n).getD i dummyPoint).month = m + i := by
  intro n
  induction n with
  | zero => intro s m i h; omega
  | succ k ih =>
    intro s m i h
    cases i with
    | zero => simp [genFrom_succ, monthStep_month]
    | succ j =>
      rw [genFrom_succ]
      simp only [List.getD_cons_succ]
      have := ih (monthStep C m s).2 (m + 1) j (by omega)
      rw [this]; omega

theorem genFrom_getD_head (C : TSConfig) (s : GenSt) (m n : ℕ) (h : 0 < n) :
    (genFrom C s m n).getD 0 dummyPoint = (monthStep C m s).1 := by
  obtain ⟨k, rfl⟩ : ∃ k, n = k + 1 := ⟨n - 1, by omega⟩
  simp [genFrom_succ]

theorem genFrom_deposits_chain (C : TSConfig) :
    ∀ (n : ℕ) (s : GenSt) (m i : ℕ), i + 1 < n →
      ((genFrom C s m n).getD (i + 1) dummyPoint).deposits
        = ((genFrom C s m n).getD i dummyPoint).deposits
          + (cumDeposits C.transactions (m + i + 1) - cumDeposits C.transactions (m + i))
          - (cumWithdrawals C.transactions (m + i + 1) - cumWithdrawals C.transactions (m + i)) := by
  intro n
  induction n with
  | zero => intro s m i h; omega
  | succ k ih =>
    intro s m i h
    cases i with
    | zero =>
      rw [genFrom_succ]
      simp only [List.getD_cons_succ, List.getD_cons_zero]
      rw [genFrom_getD_head C _ _ k (by omega)]
      rw [monthStep_deposits_not_first C (m + 1) _ (monthStep_snd_first C m s)]
      rw [monthStep_snd]
      norm_num
    | succ j =>
      rw [genFrom_succ]
      simp only [List.getD_cons_succ]
      have := ih (monthStep C m s).2 (m + 1) j (by omega)
      rw [this]
      have h1 : m + 1 + j + 1 = m + (j + 1) + 1 := by omega
      have h2 : m + 1 + j = m + (j + 1) := by omega
      rw [h1, h2]

theorem monthStep_bench_not_first (C : TSConfig) (m : ℕ) (s : GenSt) (hs : s.first = false) :
    (monthStep C m s).1.spyValue
        = max 0 (compFold C.rSpy (startMonth C) (m + 1 - startMonth C)
            ((monthStep C m s).1.deposits))
      ∧ (monthStep C m s).1.vfifxValue
        = max 0 (compFold C.rVfifx (startMonth C) (m + 1 - startMonth C)
            ((monthStep C m s).1.deposits))
      ∧ (monthStep C m s).1.pelosiValue
        = max 0 (compFold C.rPelosi (startMonth C) (m + 1 - startMonth C)
            ((monthStep C m s).1.deposits)) := by
  refine ⟨?_, ?_, ?_⟩ <;> simp [monthStep, hs]

theorem monthStep_bench_first (C : TSConfig) (m : ℕ) (s : GenSt) (hs : s.first = true) :
    (monthStep C m s).1.spyValue = max 0 ((monthStep C m s).1.deposits)
      ∧ (monthStep C m s).1.vfifxValue = max 0 ((monthStep C m s).1.deposits)
      ∧ (monthStep C m s).1.pelosiValue = max 0 ((monthStep C m s).1.deposits) := by
  refine ⟨?_, ?_, ?_⟩ <;> simp [monthStep, hs]

theorem monthStep_accountValue_not_first (C : TSConfig) (m : ℕ) (s : GenSt)
    (hs : s.first = false) :
    (monthStep C m s).1.accountValue
      = max 0 (resolveAccountValue C m ((monthStep C m s).1.deposits)) := by
  simp [monthStep, hs]

theorem monthStep_accountValue_first (C : TSConfig) (m : ℕ) (s : GenSt)
    (hs : s.first = true) (hb : 0 < firstStatementBalance C) :
    (monthStep C m s).1.accountValue = max 0 (startingPrincipal C) := by
  simp [monthStep, hs, hb]

theorem genFrom_tail_getD (C : TSConfig) (s : GenSt) (m n i : ℕ) :
    ((genFrom C s m (n + 1)).getD (i + 1) dummyPoint)
      = (genFrom C (monthStep C m s).2 (m + 1) n).getD i dummyPoint := by
  rw [genFrom_succ]; simp

theorem genFrom_bench (C : TSConfig) :
    ∀ (n : ℕ) (s : GenSt) (m i : ℕ), i < n → s.first = false →
      ((genFrom C s m n).getD i dummyPoint).spyValue
          = max 0 (compFold C.rSpy (startMonth C) (m + i + 1 - startMonth C)
              (((genFrom C s m n).getD i dummyPoint).deposits))
        ∧ ((genFrom C s m n).getD i dummyPoint).vfifxValue
          = max 0 (compFold C.rVfifx (startMonth C) (m + i + 1 - startMonth C)
              (((genFrom C s m n).getD i dummyPoint).deposits))
        ∧ ((genFrom C s m n).getD i dummyPoint).pelosiValue
          = max 0 (compFold C.rPelosi (startMonth C) (m + i + 1 - startMonth C)
              (((genFrom C s m n).getD i dummyPoint).deposits)) := by
  intro n
  induction n with
  | zero => intro s m i h; omega
  | succ k ih =>
    intro s m i h hs
    cases i with
    | zero =>
      rw [genFrom_succ]
      simp only [List.getD_cons_zero]
      have := monthStep_bench_not_first C m s hs
      simpa using this
    | succ j =>
      rw [genFrom_tail_getD]
      have := ih (monthStep C m s).2 (m + 1) j (by omega) (monthStep_snd_first C m s)
      have h1 : m + 1 + j + 1 = m + (j + 1) + 1 := by omega
      rw [h1] at this
      exact this

theorem genFrom_accountValue (C : TSConfig) :
    ∀ (n : ℕ) (s : GenSt) (m i : ℕ), i < n → s.first = false →
      ((genFrom C s m n).getD i dummyPoint).accountValue
        = max 0 (resolveAccountValue C (m + i)
            (((genFrom C s m n).getD i dummyPoint).deposits)) := by
  intro n
  induction n with
  | zero => intro s m i h; omega
  | succ k ih =>
    intro s m i h hs
    cases i with
    | zero =>
      rw [genFrom_succ]
      simp only [List.getD_cons_zero]
      simpa using monthStep_accountValue_not_first C m s hs
    | succ j =>
      rw [genFrom_tail_getD]
      have := ih (monthStep C m s).2 (m + 1) j (by omega) (monthStep_snd_first C m s)
      have h1 : m + 1 + j = m + (j + 1) := by omega
      rw [h1] at this
      exact this

theorem genFrom_nonneg (C : TSConfig) :
    ∀ (n : ℕ) (s : GenSt) (m : ℕ) (p : TSPoint), p ∈ genFrom C s m n →
      0 ≤ p.portfolioValue ∧ 0 ≤ p.accountValue ∧ 0 ≤ p.spyValue
        ∧ 0 ≤ p.vfifxValue ∧ 0 ≤ p.pelosiValue := by
  intro n
  induction n with
  | zero => intro s m p hp; simp [genFrom_zero] at hp
  | succ k ih =>
    intro s m p hp
    rw [genFrom_succ] at hp
    rcases List.mem_cons.mp hp with h | h
    · subst h
      refine ⟨?_, ?_, ?_, ?_, ?_⟩ <;> simp [monthStep, le_max_left]
    · exact ih (monthStep C m s).2 (m + 1) p h

theorem foldl_minDate_spec (f : SchwabTx → CalDate) :
    ∀ (l : List SchwabTx) (d : CalDate),
      ((l.foldl (fun a u => if dateLe a (f u) then a else f u) d) = d
          ∨ ∃ u ∈ l, (l.foldl (fun a u => if dateLe a (f u) then a else f u) d) = f u)
        ∧ (l.foldl (fun a u => if dateLe a (f u) then a else f u) d).month ≤ d.month
        ∧ ∀ u ∈ l, (l.foldl (fun a u => if dateLe a (f u) then a else f u) d).month
            ≤ (f u).month := by
  intro l
  induction l with
  | nil => intro d; exact ⟨Or.inl rfl, le_refl _, by simp⟩
  | cons u us ih =>
    intro d
    simp only [List.foldl_cons]
    by_cases hc : dateLe d (f u)
    · rw [if_pos hc]
      obtain ⟨hmem, hled, hall⟩ := ih d
      refine ⟨?_, hled, ?_⟩
      · rcases hmem with h | ⟨v, hv, hvv⟩
        · exact Or.inl h
        · exact Or.inr ⟨v, List.mem_cons_of_mem u hv, hvv⟩
      · intro v hv
        rcases List.mem_cons.mp hv with h | h
        · subst h; exact le_trans hled (dateLe_month hc)
        · exact hall v h
    · rw [if_neg hc]
      obtain ⟨hmem, hled, hall⟩ := ih (f u)
      refine ⟨?_, ?_, ?_⟩
      · rcases hmem with h | ⟨v, hv, hvv⟩
        · exact Or.inr ⟨u, List.mem_cons_self u us, h⟩
        · exact Or.inr ⟨v, List.mem_cons_of_mem u hv, hvv⟩
      · exact le_trans hled (dateLe_month (dateLe_of_not_dateLe hc))
      · intro v hv
        rcases List.mem_cons.mp hv with h | h
        · subst h; exact hled
        · exact hall v h

theorem foldl_maxStmt_spec :
    ∀ (l : List Stmt) (a : Stmt),
      ((l.foldl (fun a b => if dateLe a.date b.date then b else a) a) = a
          ∨ (l.foldl (fun a b => if dateLe a.date b.date then b else a) a) ∈ l)
        ∧ a.date.month ≤ (l.foldl (fun a b => if dateLe a.date b.date then b else a) a).date.month
        ∧ ∀ b ∈ l, b.date.month
            ≤ (l.foldl (fun a b => if dateLe a.date b.date then b else a) a).date.month := by
  intro l
  induction l with
  | nil => intro a; exact ⟨Or.inl rfl, le_refl _, by simp⟩
  | cons b bs ih =>
    intro a
    simp only [List.foldl_cons]
    by_cases hc : dateLe a.date b.date
    · rw [if_pos hc]
      obtain ⟨hmem, hlea, hall⟩ := ih b
      refine ⟨?_, le_trans (dateLe_month hc) hlea, ?_⟩
      · rcases hmem with h | h
        · exact Or.inr (by rw [h]; exact List.mem_cons_self b bs)
        · exact Or.inr (List.mem_cons_of_mem b h)
      · intro v hv
        rcases List.mem_cons.mp hv with h | h
        · subst h; exact hlea
        · exact hall v h
    · rw [if_neg hc]
      obtain ⟨hmem, hlea, hall⟩ := ih a
      refine ⟨?_, hlea, ?_⟩
      · rcases hmem with h | h
        · exact Or.inl h
        · exact Or.inr (List.mem_cons_of_mem b h)
      · intro v hv
        rcases List.mem_cons.mp hv with h | h
        · subst h
          exact le_trans (dateLe_month (dateLe_of_not_dateLe hc)) hlea
        · exact hall v h

theorem startMonth_is_min (C : TSConfig) (h : C.transactions ≠ []) :
    (∃ t ∈ C.transactions, t.date.month = startMonth C)
      ∧ ∀ t ∈ C.transactions, startMonth C ≤ t.date.month := by
  obtain ⟨t, ts, htx⟩ : ∃ t ts, C.transactions = t :: ts := by
    cases hc : C.transactions with
    | nil => exact absurd hc h
    | cons a as => exact ⟨a, as, rfl⟩
  have hs : startMonth C
      = (ts.foldl (fun a u => if dateLe a u.date then a else u.date) t.date).month := by
    simp [startMonth, minTxDate?, htx]
  obtain ⟨hmem, hled, hall⟩ := foldl_minDate_spec (fun u => u.date) ts t.date
  constructor
  · rcases hmem with hh | ⟨v, hv, hvv⟩
    · exact ⟨t, by rw [htx]; exact List.mem_cons_self t ts, by rw [hs, hh]⟩
    · exact ⟨v, by rw [htx]; exact List.mem_cons_of_mem t hv, by rw [hs, hvv]⟩
  · intro u hu
    rw [htx] at hu
    rcases List.mem_cons.mp hu with hh | hh
    · subst hh; rw [hs]; exact hled
    · rw [hs]; exact hall u hh

theorem endMonth_is_max (C : TSConfig) (h : C.balances ≠ []) :
    (∃ s ∈ C.balances, s.date.month = endMonth C)
      ∧ ∀ s ∈ C.balances, s.date.month ≤ endMonth C := by
  obtain ⟨b, bs, hbx⟩ : ∃ b bs, C.balances = b :: bs := by
    cases hc : C.balances with
    | nil => exact absurd hc h
    | cons a as => exact ⟨a, as, rfl⟩
  have hs : endMonth C
      = (bs.foldl (fun a c => if dateLe a.date c.date then c else a) b).date.month := by
    simp [endMonth, maxStmt?, hbx]
  obtain ⟨hmem, hlea, hall⟩ := foldl_maxStmt_spec bs b
  constructor
  · rcases hmem with hh | hh
    · exact ⟨b, by rw [hbx]; exact List.mem_cons_self b bs, by rw [hs, hh]⟩
    · exact ⟨_, by rw [hbx]; exact List.mem_cons_of_mem b hh, by rw [hs]⟩
  · intro s hsb
    rw [hbx] at hsb
    rcases List.mem_cons.mp hsb with hh | hh
    · subst hh; rw [hs]; exact hlea
    · rw [hs]; exact hall s hh

theorem startMonth_today (C : TSConfig) (t : ℕ) (h : C.transactions ≠ []) :
    startMonth { C with today := t } = startMonth C := by
  cases hc : C.transactions with
  | nil => exact absurd hc h
  | cons a as => simp [startMonth, minTxDate?, hc]

theorem endMonth_today (C : TSConfig) (t : ℕ) (h : C.balances ≠ []) :
    endMonth { C with today := t } = endMonth C := by
  cases hc : C.balances with
  | nil => exact absurd hc h
  | cons a as => simp [endMonth, maxStmt?, hc]

theorem monthStep_today (C : TSConfig) (t : ℕ) (h : C.transactions ≠ [])
    (m : ℕ) (s : GenSt) : monthStep { C with today := t } m s = monthStep C m s := by
  unfold monthStep
  rw [startMonth_today C t h]
  rfl

theorem genFrom_today (C : TSConfig) (t : ℕ) (h : C.transactions ≠ []) :
    ∀ (n : ℕ) (s : GenSt) (m : ℕ), genFrom { C with today := t } s m n = genFrom C s m n := by
  intro n
  induction n with
  | zero => intro s m; rfl
  | succ k ih =>
    intro s m
    rw [genFrom_succ, genFrom_succ, monthStep_today C t h, ih]

theorem generateTimeSeriesData_today (C : TSConfig) (t1 t2 : ℕ)
    (htx : C.transactions ≠ []) (hbal : C.balances ≠ []) :
    generateTimeSeriesData { C with today := t1 }
      = generateTimeSeriesData { C with today := t2 } := by
  unfold generateTimeSeriesData
  rw [startMonth_today C t1 htx, startMonth_today C t2 htx,
    endMonth_today C t1 hbal, endMonth_today C t2 hbal,
    genFrom_today C t1 htx, genFrom_today C t2 htx]
  rfl

theorem resolveAccountValue_no_stmt (C : TSConfig) (m : ℕ) (net : ℚ)
    (h : ∀ s ∈ C.balances, s.date.month ≠ m) :
    resolveAccountValue C m net
      = if 0 < C.netDeposits ∧ 0 < net then
          net * (1 + (C.currentValue - C.netDeposits) / C.netDeposits)
        else if 0 < net then net else 0 := by
  have he : exactStatementValue C.balances m = 0 := by
    unfold exactStatementValue
    have hf : C.balances.find?
        (fun s => decide (s.date.month = m ∧ s.date.day = monthEndDay m)) = none := by
      rw [List.find?_eq_none]
      intro s hs
      simp only [decide_eq_true_eq, not_and]
      intro hm
      exact absurd hm (h s hs)
    rw [hf]
  have hl : latestInMonth C.balances m = none := by
    unfold latestInMonth
    have hfil : C.balances.filter (fun s => decide (s.date.month = m)) = [] := by
      rw [List.filter_eq_nil_iff]
      intro s hs
      simp only [decide_eq_true_eq]
      exact h s hs
    rw [hfil]
    rfl
  unfold resolveAccountValue
  rw [he, hl]
  simp

theorem insertDesc_mem (t u : SchwabTx) :
    ∀ (l : List SchwabTx), u ∈ insertDesc t l ↔ u = t ∨ u ∈ l := by
  intro l
  induction l with
  | nil => simp [insertDesc]
  | cons a as ih =>
    unfold insertDesc
    by_cases hc : dateLe a.date t.date
    · rw [if_pos hc]; simp
    · rw [if_neg hc]
      simp only [List.mem_cons, ih]
      tauto

theorem sortDesc_mem (u : SchwabTx) :
    ∀ (l : List SchwabTx), u ∈ sortDesc l ↔ u ∈ l := by
  intro l
  induction l with
  | nil => simp [sortDesc]
  | cons a as ih =>
    show u ∈ insertDesc a (sortDesc as) ↔ _
    rw [insertDesc_mem, ih]
    simp [eq_comm]

/-! ### Claim theorems -/

/-- C5: the transaction classifier evaluates its rules in order with first
match winning — dividend/interest → DIVIDEND; else moneylink/transfer →
DEPOSIT when the amount is positive and WITHDRAWAL otherwise; else buy →
BUY; else sell → SELL; else advisor fee/mgmtfee → FEE; every other row is
discarded (`none`, never an UNKNOWN value) — and every transaction
retained by `processTransactions` has `netAmount = amount - fees`. -/
theorem c5_classifier_rules (action : String) (amount : ℚ) (rows : List RawRow) :
    ((lowerHas action ("dividend") || lowerHas action ("interest")) = true →
      classifyAction action amount = some TxType.DIVIDEND)
  ∧ ((lowerHas action ("dividend") || lowerHas action ("interest")) = false →
      (lowerHas action ("moneylink") || lowerHas action ("transfer")) = true →
      0 < amount →
      classifyAction action amount = some TxType.DEPOSIT)
  ∧ ((lowerHas action ("dividend") || lowerHas action ("interest")) = false →
      (lowerHas action ("moneylink") || lowerHas action ("transfer")) = true →
      ¬ 0 < amount →
      classifyAction action amount = some TxType.WITHDRAWAL)
  ∧ ((lowerHas action ("dividend") || lowerHas action ("interest")) = false →
      (lowerHas action ("moneylink") || lowerHas action ("transfer")) = false →
      lowerHas action ("buy") = true →
      classifyAction action amount = some TxType.BUY)
  ∧ ((lowerHas action ("dividend") || lowerHas action ("interest")) = false →
      (lowerHas action ("moneylink") || lowerHas action ("transfer")) = false →
      lowerHas action ("buy") = false →
      lowerHas action ("sell") = true →
      classifyAction action amount = some TxType.SELL)
  ∧ ((lowerHas action ("dividend") || lowerHas action ("interest")) = false →
      (lowerHas action ("moneylink") || lowerHas action ("transfer")) = false →
      lowerHas action ("buy") = false →
      lowerHas action ("sell") = false →
      (lowerHas action ("advisor fee") || lowerHas action ("mgmtfee")) = true →
      classifyAction action amount = some TxType.FEE)
  ∧ ((lowerHas action ("dividend") || lowerHas action ("interest")) = false →
      (lowerHas action ("moneylink") || lowerHas action ("transfer")) = false →
      lowerHas action ("buy") = false →
      lowerHas action ("sell") = false →
      (lowerHas action ("advisor fee") || lowerHas action ("mgmtfee")) = false →
      classifyAction action amount = none)
  ∧ (∀ t ∈ processTransactions rows, t.netAmount = t.amount - t.fees) := by
  refine ⟨?_, ?_, ?_, ?_, ?_, ?_, ?_, ?_⟩
  · intro h1; simp [classifyAction, h1]
  · intro h1 h2 h3; simp [classifyAction, h1, h2, h3]
  · intro h1 h2 h3; simp [classifyAction, h1, h2, h3]
  · intro h1 h2 h3; simp [classifyAction, h1, h2, h3]
  · intro h1 h2 h3 h4; simp [classifyAction, h1, h2, h3, h4]
  · intro h1 h2 h3 h4 h5; simp [classifyAction, h1, h2, h3, h4, h5]
  · intro h1 h2 h3 h4 h5; simp [classifyAction, h1, h2, h3, h4, h5]
  · intro t ht
    unfold processTransactions at ht
    rw [sortDesc_mem] at ht
    obtain ⟨r, hr, heq⟩ := List.mem_filterMap.mp ht
    obtain ⟨ty, hty, hft⟩ := Option.map_eq_some'.mp heq
    rw [← hft]

/-- Witness for C5: a MoneyLink transfer of $500 classifies as a DEPOSIT,
and the transaction retained from that row has
`netAmount = amount - fees`. -/
theorem c5_classifier_rules_witness :
    classifyAction ("MoneyLink Transfer") 500 = some TxType.DEPOSIT
      ∧ c5tx ∈ processTransactions [c5row]
      ∧ c5tx.netAmount = c5tx.amount - c5tx.fees := by
  have hmem : c5tx ∈ processTransactions [c5row] := by
    rw [show processTransactions [c5row] = [c5tx] from rfl]
    exact List.mem_singleton.mpr rfl
  refine ⟨(c5_classifier_rules ("MoneyLink Transfer") 500 []).2.1
      (by decide) (by decide) (by norm_num), hmem, ?_⟩
  exact (c5_classifier_rules ("MoneyLink Transfer") 500 [c5row]).2.2.2.2.2.2.2 c5tx hmem

/-- C6: given a previously accepted balance, an extracted statement balance
is rejected (the balance map is left unchanged and processing continues
with the remaining documents) exactly when it is a more than 90% drop from
the most recently accepted balance AND is below the $10,000 floor;
otherwise it is stored, and in both cases the rest of the documents are
still processed. -/
theorem c6_reject_iff (d : ExtractedDoc) (ds : List ExtractedDoc) (acc : List Stmt)
    (t : Stmt) (hv : 0 < d.value) (hL : latestAccepted acc = some t) :
    ((9 / 10 < (t.value - d.value) / t.value ∧ d.value < 10000) →
      acceptBalances (d :: ds) acc = acceptBalances ds acc)
  ∧ (¬ (9 / 10 < (t.value - d.value) / t.value ∧ d.value < 10000) →
      acceptBalances (d :: ds) acc = acceptBalances ds (insertBalance acc d)) := by
  constructor
  · intro hc
    show (if 0 < d.value then _ else _) = _
    rw [if_pos hv, hL]
    show (if _ then _ else _) = _
    rw [if_pos hc]
  · intro hc
    show (if 0 < d.value then _ else _) = _
    rw [if_pos hv, hL]
    show (if _ then _ else _) = _
    rw [if_neg hc]

/-- Witness for C6 (the spec's rejected-anomalous-statement scenario): a
$500 statement following an accepted $200,000 statement is a >90% drop
below the $10,000 floor, so the balance map is unchanged, while a later
$195,000 statement is still accepted. -/
theorem c6_reject_iff_witness :
    (0 : ℚ) < 500
      ∧ latestAccepted [{ date := { month := 0, day := 31 }, value := 200000 }]
          = some { date := { month := 0, day := 31 }, value := 200000 }
      ∧ acceptBalances
          [{ date := { month := 1, day := 29 }, value := 500 },
           { date := { month := 2, day := 31 }, value := 195000 }]
          [{ date := { month := 0, day := 31 }, value := 200000 }]
        = acceptBalances [{ date := { month := 2, day := 31 }, value := 195000 }]
            [{ date := { month := 0, day := 31 }, value := 200000 }] := by
  refine ⟨by norm_num, rfl, ?_⟩
  exact (c6_reject_iff { date := { month := 1, day := 29 }, value := 500 }
      [{ date := { month := 2, day := 31 }, value := 195000 }]
      [{ date := { month := 0, day := 31 }, value := 200000 }]
      { date := { month := 0, day := 31 }, value := 200000 }
      (by norm_num) rfl).1 (by norm_num)

/-- C7: `parseDate` extracts the first `MM/DD/YYYY` token and reformats it
as `YYYY-MM-DD`, but on an input containing no such token it silently
returns the current date instead of failing — the source contradicts the
spec's required hard extraction failure (a defect the spec itself flags),
shown here by evaluating the function at a token-free input. -/
theorem c7_parseDate_defaults_to_now :
    parseDate ("2026-10-12") ("Statement for period ending") = "2026-10-12"
      ∧ parseDate ("2026-10-12") ("07/16/2025 as of 07/15/2025") = "2025-07-16" := by
  constructor <;> rfl

/-- Counterexample for C8: at `finalValue = 2`, `initialPrincipal = 1/2`,
`years = 1` the claim's guards do not apply (the principal is positive,
the years exceed 0.1, and the claimed result `((2 / (1/2))^(1/1) - 1) × 100
= 300` is finite), so the claim predicts 300; the source returns 0 because
its guard rejects every principal up to $1
(`MIN_PRINCIPAL_FOR_CALCULATION`), not only non-positive ones.
`powAtOne` agrees with `Math.pow` at exponent 1. -/
theorem c8_annualized_counterexample :
    calculateAnnualizedReturn powAtOne 2 (1 / 2) 1 = 0
      ∧ (2 / ((1 : ℚ) / 2) - 1) * 100 = 300
      ∧ (0 : ℚ) ≠ 300 := by
  refine ⟨?_, by norm_num, by norm_num⟩
  unfold calculateAnnualizedReturn MIN_PRINCIPAL_FOR_CALCULATION
  rw [if_pos (by norm_num)]

/-- C8 amended: `calculateAnnualizedReturn` returns 0 whenever
`initialPrincipal ≤ $1` (the `MIN_PRINCIPAL_FOR_CALCULATION` guard, which
subsumes `initialPrincipal ≤ 0`), whenever `years < 0.1`, and whenever
`finalValue < 0`; for `initialPrincipal > 1`, `years ≥ 0.1` and
`finalValue > 0` it computes `(pow(finalValue/initialPrincipal, 1/years) -
1) × 100`.  Over the exact rationals every result is finite, so no
NaN/Infinity can propagate. -/
theorem c8_annualized_amended (pw : ℚ → ℚ → ℚ) (f p y : ℚ) :
    ((p ≤ 1 ∨ y < 1 / 10 ∨ f < 0) → calculateAnnualizedReturn pw f p y = 0)
      ∧ (1 < p → 1 / 10 ≤ y → 0 < f →
          calculateAnnualizedReturn pw f p y = (pw (f / p) (1 / y) - 1) * 100) := by
  constructor
  · intro hc
    unfold calculateAnnualizedReturn MIN_PRINCIPAL_FOR_CALCULATION MIN_YEARS_FOR_ANNUALIZED
    rcases hc with h | h | h
    · rw [if_pos h]
    · by_cases hp : p ≤ 1
      · rw [if_pos hp]
      · rw [if_neg hp, if_pos h]
    · by_cases hp : p ≤ 1
      · rw [if_pos hp]
      · rw [if_neg hp]
        by_cases hy : y < 1 / 10
        · rw [if_pos hy]
        · rw [if_neg hy, if_pos (Or.inl h)]
  · intro hp hy hf
    unfold calculateAnnualizedReturn MIN_PRINCIPAL_FOR_CALCULATION MIN_YEARS_FOR_ANNUALIZED
    rw [if_neg (by linarith), if_neg (by linarith),
      if_neg (by push_neg; exact ⟨by linarith, by linarith, by linarith⟩)]
    unfold safeDivide safePower
    rw [if_neg (show ¬ p = 0 by intro h0; rw [h0] at hp; norm_num at hp)]
    rw [if_neg (show ¬ y = 0 by intro h0; rw [h0] at hy; norm_num at hy)]
    rw [if_neg (not_le.mpr (div_pos hf (by linarith)))]

/-- Witness for C8 amended: principal $2 over one year turning into $8
yields `(pow(4, 1) - 1) × 100 = 300`, and a zero principal returns 0. -/
theorem c8_annualized_amended_witness :
    (1 : ℚ) < 2 ∧ (1 : ℚ) / 10 ≤ 1 ∧ (0 : ℚ) < 8
      ∧ calculateAnnualizedReturn powAtOne 8 2 1 = (powAtOne (8 / 2) (1 / 1) - 1) * 100
      ∧ ((0 : ℚ) ≤ 1 ∨ (1 : ℚ) < 1 / 10 ∨ (5 : ℚ) < 0)
      ∧ calculateAnnualizedReturn powAtOne 5 0 1 = 0 := by
  refine ⟨by norm_num, by norm_num, by norm_num, ?_, Or.inl (by norm_num), ?_⟩
  · exact (c8_annualized_amended powAtOne 8 2 1).2 (by norm_num) (by norm_num) (by norm_num)
  · exact (c8_annualized_amended powAtOne 5 0 1).1 (Or.inl (by norm_num))

/-- C10: every point emitted by the time-series builder has non-negative
`portfolioValue`, `accountValue`, `spyValue`, `vfifxValue` and
`pelosiValue` — each of these fields is clamped with `Math.max(0, ·)`
before the point is pushed. -/
theorem c10_nonneg (C : TSConfig) (p : TSPoint) (hp : p ∈ generateTimeSeriesData C) :
    0 ≤ p.portfolioValue ∧ 0 ≤ p.accountValue ∧ 0 ≤ p.spyValue
      ∧ 0 ≤ p.vfifxValue ∧ 0 ≤ p.pelosiValue :=
  genFrom_nonneg C _ _ _ p hp

/-- Witness for C10: the point generated from `c10cfg` is in the series
and its five clamped fields are non-negative. -/
theorem c10_nonneg_witness :
    c10pt ∈ generateTimeSeriesData c10cfg
      ∧ (0 ≤ c10pt.portfolioValue ∧ 0 ≤ c10pt.accountValue ∧ 0 ≤ c10pt.spyValue
          ∧ 0 ≤ c10pt.vfifxValue ∧ 0 ≤ c10pt.pelosiValue) := by
  have hmem : c10pt ∈ generateTimeSeriesData c10cfg := by
    have hlen : (generateTimeSeriesData c10cfg).length = 1 := by
      unfold generateTimeSeriesData
      rw [genFrom_length]
      norm_num [startMonth, endMonth, minTxDate?, maxStmt?, c10cfg, oneBuyTx]
    have hpt : c10pt = (generateTimeSeriesData c10cfg).getD 0 dummyPoint := rfl
    have h0 : 0 < (generateTimeSeriesData c10cfg).length := by rw [hlen]; norm_num
    rw [hpt, List.getD_eq_getElem _ dummyPoint h0]
    exact List.getElem_mem h0
  exact ⟨hmem, c10_nonneg c10cfg c10pt hmem⟩

/-- C2: the principal (`deposits` field) of the first emitted point equals
the first accepted statement balance — or the hardcoded starting-principal
override for the General Investment Account — and for every later point the
principal difference equals exactly that month's deposits delta minus
withdrawals delta, where the deltas are differences of cumulative totals of
transactions dated up to each month-end. -/
theorem c2_principal_conservation (C : TSConfig) (hb : C.balances ≠ [])
    (hp : generateTimeSeriesData C ≠ []) :
    ((generateTimeSeriesData C).getD 0 dummyPoint).deposits
        = (if C.isGeneralInvestment = true then HARDCODED_STARTING_VALUE
           else firstStatementBalance C)
      ∧ ∀ i, i + 1 < (generateTimeSeriesData C).length →
          ((generateTimeSeriesData C).getD (i + 1) dummyPoint).deposits
              - ((generateTimeSeriesData C).getD i dummyPoint).deposits
            = (cumDeposits C.transactions (startMonth C + i + 1)
                - cumDeposits C.transactions (startMonth C + i))
              - (cumWithdrawals C.transactions (startMonth C + i + 1)
                - cumWithdrawals C.transactions (startMonth C + i)) := by
  have hn : 0 < endMonth C + 1 - startMonth C := by
    by_contra hc
    apply hp
    unfold generateTimeSeriesData
    have : endMonth C + 1 - startMonth C = 0 := by omega
    rw [this, genFrom_zero]
  constructor
  · show ((genFrom C (initSt C) (startMonth C) (endMonth C + 1 - startMonth C)).getD 0
        dummyPoint).deposits = _
    rw [genFrom_getD_head C _ _ _ hn, monthStep_deposits_first C _ _ rfl]
    rfl
  · intro i hi
    have hi' : i + 1 < endMonth C + 1 - startMonth C := by
      have : (generateTimeSeriesData C).length = endMonth C + 1 - startMonth C := by
        unfold generateTimeSeriesData; rw [genFrom_length]
      omega
    have := genFrom_deposits_chain C (endMonth C + 1 - startMonth C) (initSt C)
      (startMonth C) i hi'
    have hgen : (generateTimeSeriesData C).getD i dummyPoint
        = (genFrom C (initSt C) (startMonth C) (endMonth C + 1 - startMonth C)).getD i
            dummyPoint := rfl
    show ((genFrom C (initSt C) (startMonth C) (endMonth C + 1 - startMonth C)).getD (i + 1)
        dummyPoint).deposits - _ = _
    rw [hgen, this]
    ring

/-- Witness for C2: on `c2cfg` (statements $1,000 then $1,100; deposits
$100 in month 0 and $50 in month 1) the first point's principal is the
first statement balance and the month-1 principal delta is the $50
cumulative-deposits delta. -/
theorem c2_principal_conservation_witness :
    c2cfg.balances ≠ []
      ∧ generateTimeSeriesData c2cfg ≠ []
      ∧ ((generateTimeSeriesData c2cfg).getD 0 dummyPoint).deposits
          = (if c2cfg.isGeneralInvestment = true then HARDCODED_STARTING_VALUE
             else firstStatementBalance c2cfg)
      ∧ 0 + 1 < (generateTimeSeriesData c2cfg).length
      ∧ ((generateTimeSeriesData c2cfg).getD (0 + 1) dummyPoint).deposits
            - ((generateTimeSeriesData c2cfg).getD 0 dummyPoint).deposits
          = (cumDeposits c2cfg.transactions (startMonth c2cfg + 0 + 1)
              - cumDeposits c2cfg.transactions (startMonth c2cfg + 0))
            - (cumWithdrawals c2cfg.transactions (startMonth c2cfg + 0 + 1)
              - cumWithdrawals c2cfg.transactions (startMonth c2cfg + 0)) := by
  have hb : c2cfg.balances ≠ [] := by simp [c2cfg]
  have hlen : (generateTimeSeriesData c2cfg).length = 2 := by
    unfold generateTimeSeriesData
    rw [genFrom_length]
    norm_num [startMonth, endMonth, minTxDate?, maxStmt?, c2cfg, dateLe]
  have hp : generateTimeSeriesData c2cfg ≠ [] := by
    intro hc
    rw [hc] at hlen
    simp at hlen
  have h := c2_principal_conservation c2cfg hb hp
  exact ⟨hb, hp, h.1, by omega, h.2 0 (by omega)⟩

/-- C3 amended: the generated series is one point per calendar month in
ascending order with consecutive months (`point[i].month = startMonth + i`,
hence no gaps and no duplicates), its length spans exactly through the
month of the last statement, and — contrary to the claim — its FIRST point
is the month of the earliest TRANSACTION (not the month of the first
statement); the last generated month is the month of the last statement. -/
theorem c3_months_amended (C : TSConfig) :
    (∀ i, i < (generateTimeSeriesData C).length →
        ((generateTimeSeriesData C).getD i dummyPoint).month = startMonth C + i)
      ∧ (generateTimeSeriesData C).length = endMonth C + 1 - startMonth C
      ∧ (C.transactions ≠ [] →
          (∃ t ∈ C.transactions, t.date.month = startMonth C)
            ∧ ∀ t ∈ C.transactions, startMonth C ≤ t.date.month)
      ∧ (C.balances ≠ [] →
          (∃ s ∈ C.balances, s.date.month = endMonth C)
            ∧ ∀ s ∈ C.balances, s.date.month ≤ endMonth C) := by
  have hlen : (generateTimeSeriesData C).length = endMonth C + 1 - startMonth C := by
    unfold generateTimeSeriesData; rw [genFrom_length]
  refine ⟨?_, hlen, startMonth_is_min C, endMonth_is_max C⟩
  intro i hi
  rw [hlen] at hi
  exact genFrom_month C _ (initSt C) (startMonth C) i hi

/-- Counterexample for C3: in `c3cfg` the earliest transaction is in
month 0 while the only statement is in month 1, and the series starts at
month 0 — the month of the first transaction, not the month of the first
statement. -/
theorem c3_span_counterexample :
    ((generateTimeSeriesData c3cfg).getD 0 dummyPoint).month = 0
      ∧ c3cfg.balances = [{ date := { month := 1, day := 29 }, value := 1100 }]
      ∧ (0 : ℕ) ≠ 1 := by
  have hn : 0 < endMonth c3cfg + 1 - startMonth c3cfg := by
    norm_num [startMonth, endMonth, minTxDate?, maxStmt?, c3cfg, oneBuyTx]
  refine ⟨?_, rfl, by norm_num⟩
  show ((genFrom c3cfg (initSt c3cfg) (startMonth c3cfg)
      (endMonth c3cfg + 1 - startMonth c3cfg)).getD 0 dummyPoint).month = 0
  rw [genFrom_getD_head c3cfg _ _ _ hn, monthStep_month]
  norm_num [startMonth, minTxDate?, c3cfg, oneBuyTx]

/-- Witness for C3 amended: on `c3cfg` the second point is one month after
the series start, the length reaches the last statement month, and the
min/max characterizations hold with their nonemptiness hypotheses
discharged. -/
theorem c3_months_amended_witness :
    1 < (generateTimeSeriesData c3cfg).length
      ∧ ((generateTimeSeriesData c3cfg).getD 1 dummyPoint).month = startMonth c3cfg + 1
      ∧ (generateTimeSeriesData c3cfg).length = endMonth c3cfg + 1 - startMonth c3cfg
      ∧ startMonth c3cfg ≤ oneBuyTx.date.month
      ∧ ({ date := { month := 1, day := 29 }, value := 1100 } : Stmt).date.month
          ≤ endMonth c3cfg := by
  have h := c3_months_amended c3cfg
  have hlen : (generateTimeSeriesData c3cfg).length = 2 := by
    rw [h.2.1]
    norm_num [startMonth, endMonth, minTxDate?, maxStmt?, c3cfg, oneBuyTx]
  refine ⟨by omega, h.1 1 (by omega), h.2.1, ?_, ?_⟩
  · exact (h.2.2.1 (by simp [c3cfg])).2 oneBuyTx (by simp [c3cfg])
  · exact (h.2.2.2 (by simp [c3cfg])).2 _ (by simp [c3cfg])

/-- C1 amended: benchmark values are NOT built by the claimed recurrence
`b[i] = b[i-1] × (1 + r(month_i)) + principalDelta[i]`.  Instead the source
recomputes each point from scratch: the first point's benchmark value is
that point's principal (clamped at 0), and every later point's benchmark
value is the point's CURRENT cumulative principal compounded through every
month from the series start month up to and including the current month
(`i + 1` monthly factors, clamped at 0) — so principal deltas are
retroactively compounded from the start and the first month's return is
applied as well. -/
theorem c1_benchmark_amended (C : TSConfig) (i : ℕ)
    (h : i < (generateTimeSeriesData C).length) :
    (i = 0 →
        ((generateTimeSeriesData C).getD i dummyPoint).spyValue
            = max 0 (((generateTimeSeriesData C).getD i dummyPoint).deposits)
          ∧ ((generateTimeSeriesData C).getD i dummyPoint).vfifxValue
            = max 0 (((generateTimeSeriesData C).getD i dummyPoint).deposits)
          ∧ ((generateTimeSeriesData C).getD i dummyPoint).pelosiValue
            = max 0 (((generateTimeSeriesData C).getD i dummyPoint).deposits))
      ∧ (0 < i →
        ((generateTimeSeriesData C).getD i dummyPoint).spyValue
            = max 0 (compFold C.rSpy (startMonth C) (i + 1)
                (((generateTimeSeriesData C).getD i dummyPoint).deposits))
          ∧ ((generateTimeSeriesData C).getD i dummyPoint).vfifxValue
            = max 0 (compFold C.rVfifx (startMonth C) (i + 1)
                (((generateTimeSeriesData C).getD i dummyPoint).deposits))
          ∧ ((generateTimeSeriesData C).getD i dummyPoint).pelosiValue
            = max 0 (compFold C.rPelosi (startMonth C) (i + 1)
                (((generateTimeSeriesData C).getD i dummyPoint).deposits))) := by
  have hlen : (generateTimeSeriesData C).length = endMonth C + 1 - startMonth C := by
    unfold generateTimeSeriesData; rw [genFrom_length]
  have hn : i < endMonth C + 1 - startMonth C := by omega
  constructor
  · intro h0
    subst h0
    have e : (generateTimeSeriesData C).getD 0 dummyPoint
        = (monthStep C (startMonth C) (initSt C)).1 := by
      show (genFrom C (initSt C) (startMonth C) (endMonth C + 1 - startMonth C)).getD 0
          dummyPoint = _
      exact genFrom_getD_head C _ _ _ hn
    rw [e]
    have hb := monthStep_bench_first C (startMonth C) (initSt C) rfl
    exact ⟨hb.1, hb.2.1, hb.2.2⟩
  · intro hpos
    obtain ⟨j, rfl⟩ : ∃ j, i = j + 1 := ⟨i - 1, by omega⟩
    obtain ⟨k, hk⟩ : ∃ k, endMonth C + 1 - startMonth C = k + 1 :=
      ⟨endMonth C + 1 - startMonth C - 1, by omega⟩
    have e : (generateTimeSeriesData C).getD (j + 1) dummyPoint
        = (genFrom C (monthStep C (startMonth C) (initSt C)).2 (startMonth C + 1) k).getD j
            dummyPoint := by
      show (genFrom C (initSt C) (startMonth C) (endMonth C + 1 - startMonth C)).getD (j + 1)
          dummyPoint = _
      rw [hk, genFrom_tail_getD]
    rw [e]
    have hb := genFrom_bench C k (monthStep C (startMonth C) (initSt C)).2
      (startMonth C + 1) j (by omega) (monthStep_snd_first C (startMonth C) (initSt C))
    have harith : startMonth C + 1 + j + 1 - startMonth C = j + 1 + 1 := by omega
    rw [harith] at hb
    exact hb

/-- Counterexample for C1: in `c1cfg` (statements $1,000 and $1,100, no
cash flows after the first point, S&P return +100% in month 0) the
recurrence of the claim predicts
`spy[1] = spy[0] × (1 + r(month_1)) + principalDelta[1] = 1000`, but the
generated point has `spy[1] = 2000`, because the source also re-applies
month 0's +100% return at point 1. -/
theorem c1_benchmark_counterexample :
    ((generateTimeSeriesData c1cfg).getD 1 dummyPoint).spyValue = 2000
      ∧ ((generateTimeSeriesData c1cfg).getD 0 dummyPoint).spyValue * (1 + c1cfg.rSpy 1)
          + (((generateTimeSeriesData c1cfg).getD 1 dummyPoint).deposits
            - ((generateTimeSeriesData c1cfg).getD 0 dummyPoint).deposits)
        = 1000
      ∧ (2000 : ℚ) ≠ 1000 := by
  refine ⟨?_, ?_, by norm_num⟩ <;>
    norm_num [generateTimeSeriesData, genFrom, monthStep, initSt, startMonth, endMonth,
      minTxDate?, minStmt?, maxStmt?, firstStatementBalance, startingPrincipal,
      cumDeposits, cumWithdrawals, exactStatementValue, latestInMonth, latestAccepted,
      resolveAccountValue, compFold, dateLe, monthEndDay, isLeapYear, c1cfg, oneBuyTx,
      zeroReturns, HARDCODED_STARTING_VALUE, dummyPoint, List.filter, List.find?, List.getD]

/-- Witness for C1 amended: on `c1cfg`, point 1's S&P value equals its
principal compounded through months 0 and 1. -/
theorem c1_benchmark_amended_witness :
    1 < (generateTimeSeriesData c1cfg).length
      ∧ ((generateTimeSeriesData c1cfg).getD 1 dummyPoint).spyValue
          = max 0 (compFold c1cfg.rSpy (startMonth c1cfg) (1 + 1)
              (((generateTimeSeriesData c1cfg).getD 1 dummyPoint).deposits)) := by
  have hlen : (generateTimeSeriesData c1cfg).length = 2 := by
    unfold generateTimeSeriesData
    rw [genFrom_length]
    norm_num [startMonth, endMonth, minTxDate?, maxStmt?, c1cfg, oneBuyTx, dateLe]
  exact ⟨by omega, ((c1_benchmark_amended c1cfg 1 (by omega)).2 (by omega)).1⟩

/-- C4 amended: for every non-first point the account value is the clamped
result of the source's resolution cascade — exact month-end statement,
else latest statement within the month, else the estimate
`principal × (1 + (currentValue - netDeposits) / netDeposits)` (or the
bare principal when `netDeposits ≤ 0`, or 0); when NO statement exists in
the month and `netDeposits` and the principal are positive, the estimate
formula is used.  The FIRST point instead uses the first accepted
statement balance (or the override) whenever any accepted statement
exists, regardless of that month's statements.  Estimated points are NOT
flagged: the emitted point has no field marking estimation (see the
counterexample). -/
theorem c4_account_value_amended (C : TSConfig) (i : ℕ)
    (h : i < (generateTimeSeriesData C).length) :
    (0 < i →
        ((generateTimeSeriesData C).getD i dummyPoint).accountValue
          = max 0 (resolveAccountValue C (startMonth C + i)
              (((generateTimeSeriesData C).getD i dummyPoint).deposits)))
      ∧ (i = 0 → 0 < firstStatementBalance C →
          ((generateTimeSeriesData C).getD 0 dummyPoint).accountValue
            = max 0 (startingPrincipal C))
      ∧ (0 < i → (∀ s ∈ C.balances, s.date.month ≠ startMonth C + i) →
          0 < C.netDeposits →
          0 < ((generateTimeSeriesData C).getD i dummyPoint).deposits →
          ((generateTimeSeriesData C).getD i dummyPoint).accountValue
            = max 0 (((generateTimeSeriesData C).getD i dummyPoint).deposits
                * (1 + (C.currentValue - C.netDeposits) / C.netDeposits))) := by
  have hlen : (generateTimeSeriesData C).length = endMonth C + 1 - startMonth C := by
    unfold generateTimeSeriesData; rw [genFrom_length]
  have hn : i < endMonth C + 1 - startMonth C := by omega
  have hmain : 0 < i →
      ((generateTimeSeriesData C).getD i dummyPoint).accountValue
        = max 0 (resolveAccountValue C (startMonth C + i)
            (((generateTimeSeriesData C).getD i dummyPoint).deposits)) := by
    intro hpos
    obtain ⟨j, rfl⟩ : ∃ j, i = j + 1 := ⟨i - 1, by omega⟩
    obtain ⟨k, hk⟩ : ∃ k, endMonth C + 1 - startMonth C = k + 1 :=
      ⟨endMonth C + 1 - startMonth C - 1, by omega⟩
    have e : (generateTimeSeriesData C).getD (j + 1) dummyPoint
        = (genFrom C (monthStep C (startMonth C) (initSt C)).2 (startMonth C + 1) k).getD j
            dummyPoint := by
      show (genFrom C (initSt C) (startMonth C) (endMonth C + 1 - startMonth C)).getD (j + 1)
          dummyPoint = _
      rw [hk, genFrom_tail_getD]
    rw [e]
    have hb := genFrom_accountValue C k (monthStep C (startMonth C) (initSt C)).2
      (startMonth C + 1) j (by omega) (monthStep_snd_first C (startMonth C) (initSt C))
    have harith : startMonth C + 1 + j = startMonth C + (j + 1) := by omega
    rw [harith] at hb
    exact hb
  refine ⟨hmain, ?_, ?_⟩
  · intro h0 hfb
    subst h0
    have e : (generateTimeSeriesData C).getD 0 dummyPoint
        = (monthStep C (startMonth C) (initSt C)).1 := by
      show (genFrom C (initSt C) (startMonth C) (endMonth C + 1 - startMonth C)).getD 0
          dummyPoint = _
      exact genFrom_getD_head C _ _ _ hn
    rw [e]
    exact monthStep_accountValue_first C (startMonth C) (initSt C) rfl hfb
  · intro hpos hno hnd hdep
    rw [hmain hpos, resolveAccountValue_no_stmt C _ _ hno, if_pos ⟨hnd, hdep⟩]

/-- Counterexample for C4: `c4cfgA` and `c4cfgB` differ only in that
`c4cfgB` has no statement in month 1, so `c4cfgB`'s month-1 point is
produced by the estimation fallback while `c4cfgA`'s is statement-backed —
yet the two generated series are IDENTICAL: no output field flags the
estimated point, contradicting the claim that estimated points are
distinguishable in the output. -/
theorem c4_no_estimated_flag_counterexample :
    generateTimeSeriesData c4cfgA = generateTimeSeriesData c4cfgB
      ∧ c4cfgA.balances = [{ date := { month := 0, day := 31 }, value := 1000 },
                           { date := { month := 1, day := 29 }, value := 1000 },
                           { date := { month := 2, day := 31 }, value := 1200 }]
      ∧ c4cfgB.balances = [{ date := { month := 0, day := 31 }, value := 1000 },
                           { date := { month := 2, day := 31 }, value := 1200 }] := by
  refine ⟨?_, rfl, rfl⟩
  norm_num [generateTimeSeriesData, genFrom, monthStep, initSt, startMonth, endMonth,
    minTxDate?, minStmt?, maxStmt?, firstStatementBalance, startingPrincipal,
    cumDeposits, cumWithdrawals, exactStatementValue, latestInMonth, latestAccepted,
    resolveAccountValue, compFold, dateLe, monthEndDay, isLeapYear, c4cfgA, c4cfgB,
    oneBuyTx, zeroReturns, HARDCODED_STARTING_VALUE, List.filter, List.find?]

/-- Witness for C4 amended: on `c4cfgB`, point 1 (a month with no
statement) resolves through the cascade to the clamped estimate. -/
theorem c4_account_value_amended_witness :
    1 < (generateTimeSeriesData c4cfgB).length
      ∧ ((generateTimeSeriesData c4cfgB).getD 1 dummyPoint).accountValue
          = max 0 (resolveAccountValue c4cfgB (startMonth c4cfgB + 1)
              (((generateTimeSeriesData c4cfgB).getD 1 dummyPoint).deposits)) := by
  have hlen : (generateTimeSeriesData c4cfgB).length = 3 := by
    unfold generateTimeSeriesData
    rw [genFrom_length]
    norm_num [startMonth, endMonth, minTxDate?, maxStmt?, c4cfgB, oneBuyTx, dateLe]
  exact ⟨by omega, (c4_account_value_amended c4cfgB 1 (by omega)).1 (by omega)⟩

/-- Counterexample for C9: `calculateMetrics` embeds the wall clock in its
output — on the same input, a run at time `msPerYear` reports
`yearsInvested = 1` while a run at `2 × msPerYear` reports
`yearsInvested = 2`, so two runs at different wall-clock times do NOT
agree on every output field other than `lastUpdated`. -/
theorem c9_idempotence_counterexample :
    (calculateMetrics zeroPow zeroMs zeroReturns [] c9txs false [] none
        msPerYear).yearsInvested = 1
      ∧ (calculateMetrics zeroPow zeroMs zeroReturns [] c9txs false [] none
          (2 * msPerYear)).yearsInvested = 2
      ∧ (1 : ℚ) ≠ 2 := by
  refine ⟨?_, ?_, by norm_num⟩ <;>
    norm_num [calculateMetrics, minQList, c9txs, zeroMs, msPerYear, sumAbsByType,
      maxStmt?, minStmt?, calculateSP500Performance]

/-- C9 amended: the run timestamp influences exactly the time-derived
metric fields — for any two run times, `calculateMetrics` agrees on every
output field except `yearsInvested` and `annualizedReturn` (which divide
by the wall-clock-dependent investment period), and the generated time
series itself is identical across run times whenever at least one
transaction and one statement exist (the wall clock is only consulted as a
fallback for empty inputs). -/
theorem c9_idempotence_amended (pw : ℚ → ℚ → ℚ) (msOf : CalDate → ℚ) (r : ℕ → ℚ)
    (positions : List ℚ) (txs : List SchwabTx) (isGI : Bool) (bals : List Stmt)
    (ts : Option (List TSPoint)) (now1 now2 : ℚ) (C : TSConfig) (t1 t2 : ℕ)
    (htx : C.transactions ≠ []) (hbal : C.balances ≠ []) :
    (calculateMetrics pw msOf r positions txs isGI bals ts now1).currentValue
        = (calculateMetrics pw msOf r positions txs isGI bals ts now2).currentValue
      ∧ (calculateMetrics pw msOf r positions txs isGI bals ts now1).totalDeposits
        = (calculateMetrics pw msOf r positions txs isGI bals ts now2).totalDeposits
      ∧ (calculateMetrics pw msOf r positions txs isGI bals ts now1).totalWithdrawals
        = (calculateMetrics pw msOf r positions txs isGI bals ts now2).totalWithdrawals
      ∧ (calculateMetrics pw msOf r positions txs isGI bals ts now1).totalFees
        = (calculateMetrics pw msOf r positions txs isGI bals ts now2).totalFees
      ∧ (calculateMetrics pw msOf r positions txs isGI bals ts now1).netDeposits
        = (calculateMetrics pw msOf r positions txs isGI bals ts now2).netDeposits
      ∧ (calculateMetrics pw msOf r positions txs isGI bals ts now1).realReturn
        = (calculateMetrics pw msOf r positions txs isGI bals ts now2).realReturn
      ∧ (calculateMetrics pw msOf r positions txs isGI bals ts now1).realReturnPercent
        = (calculateMetrics pw msOf r positions txs isGI bals ts now2).realReturnPercent
      ∧ (calculateMetrics pw msOf r positions txs isGI bals ts now1).netReturnAfterFees
        = (calculateMetrics pw msOf r positions txs isGI bals ts now2).netReturnAfterFees
      ∧ (calculateMetrics pw msOf r positions txs isGI bals ts
            now1).netReturnAfterFeesPercent
        = (calculateMetrics pw msOf r positions txs isGI bals ts
            now2).netReturnAfterFeesPercent
      ∧ (calculateMetrics pw msOf r positions txs isGI bals ts now1).sp500Value
        = (calculateMetrics pw msOf r positions txs isGI bals ts now2).sp500Value
      ∧ (calculateMetrics pw msOf r positions txs isGI bals ts now1).sp500Return
        = (calculateMetrics pw msOf r positions txs isGI bals ts now2).sp500Return
      ∧ (calculateMetrics pw msOf r positions txs isGI bals ts now1).sp500Gains
        = (calculateMetrics pw msOf r positions txs isGI bals ts now2).sp500Gains
      ∧ (calculateMetrics pw msOf r positions txs isGI bals ts now1).outperformance
        = (calculateMetrics pw msOf r positions txs isGI bals ts now2).outperformance
      ∧ (calculateMetrics pw msOf r positions txs isGI bals ts now1).outperformancePercent
        = (calculateMetrics pw msOf r positions txs isGI bals ts now2).outperformancePercent
      ∧ generateTimeSeriesData { C with today := t1 }
        = generateTimeSeriesData { C with today := t2 } :=
  ⟨rfl, rfl, rfl, rfl, rfl, rfl, rfl, rfl, rfl, rfl, rfl, rfl, rfl, rfl,
    generateTimeSeriesData_today C t1 t2 htx hbal⟩

/-- Witness for C9 amended: concrete instantiation — the net deposits of
two runs at times 1 and 2 agree, and the `c10cfg` time series is identical
for run months 5 and 7. -/
theorem c9_idempotence_amended_witness :
    c10cfg.transactions ≠ []
      ∧ c10cfg.balances ≠ []
      ∧ (calculateMetrics zeroPow zeroMs zeroReturns [] c9txs false [] none 1).netDeposits
        = (calculateMetrics zeroPow zeroMs zeroReturns [] c9txs false [] none 2).netDeposits
      ∧ generateTimeSeriesData { c10cfg with today := 5 }
        = generateTimeSeriesData { c10cfg with today := 7 } := by
  have h := c9_idempotence_amended zeroPow zeroMs zeroReturns [] c9txs false [] none 1 2
    c10cfg 5 7 (by simp [c10cfg]) (by simp [c10cfg])
  exact ⟨by simp [c10cfg], by simp [c10cfg], h.2.2.2.2.1,
    h.2.2.2.2.2.2.2.2.2.2.2.2.2.2⟩
